import Mathlib

/-!
Verification development for the stellar nursery N-body simulation.

The simulation core lives in App.tsx: a per-frame physics tick over a
mutable array of celestial bodies (pairwise softened gravity, orbital
damping, black-hole feeding with spiral drag, merging), plus registry
handlers for mergers and mass transfer, and a mass-band classifier that
turns a collapsing hydrogen cloud into a star archetype.

Numbers are modelled as exact rationals.  The source calls Math.sqrt and
a cube root (Math.pow with exponent one third); those are irrational in
general, so the embedding takes them as oracle functions of type Q to Q.
Theorems that depend on their values carry hypotheses stating that the
oracle is exact at the inputs actually used, and witnesses instantiate
the oracles at inputs where the exact root is rational.
-/

/-- Three-component vector of rationals, mirroring the x, y, z position and
velocity records of the source. -/
structure Vec3 where
  x : ℚ
  y : ℚ
  z : ℚ
deriving DecidableEq, Repr

/-- Star archetype enum, mirroring StarType in types.ts.  The Portuguese
display strings are dropped; what matters for the physics is which values
contain the black hole substring, captured by isBH below. -/
inductive StarType where
  | brownDwarf
  | redDwarf
  | yellowDwarf
  | binaryStar
  | blueGiant
  | neutronStar
  | blackHole
  | supermassiveBlackHole
  | quasar
  | roguePlanet
deriving DecidableEq, Repr

/-- Celestial body record, mirroring the StarData fields that the physics
core reads or writes.  Ids are natural numbers standing for the uuid
strings of the source.  Visual-only fields (color, emissive intensity,
rotation rate, accretion disk flag, planet list) are omitted: the core
never branches on them. -/
structure Body where
  id : ℕ
  position : Vec3
  velocity : Vec3
  mass : ℚ
  type : StarType
  radius : ℚ
  age : ℚ
  consumedBy : Option ℕ
  isShredding : Bool
deriving DecidableEq, Repr

/-- Gravitational constant G of App.tsx line 25. -/
def G : ℚ := 1/2

/-- Softening constant of App.tsx line 26. -/
def SOFTENING : ℚ := 2

/-- Compact-object test of App.tsx lines 81 and 82: the source checks
whether the type string contains the black hole substring or equals the
quasar value.  Exactly the black hole, supermassive black hole and quasar
archetypes satisfy that check. -/
def isBH (t : StarType) : Bool :=
  t == StarType.blackHole || t == StarType.supermassiveBlackHole || t == StarType.quasar

/-- Squared distance between two bodies, as computed at App.tsx lines 64
to 68. -/
def distSqOf (a b : Body) : ℚ :=
  let dx := b.position.x - a.position.x
  let dy := b.position.y - a.position.y
  let dz := b.position.z - a.position.z
  dx * dx + dy * dy + dz * dz

/-- Predator selection of App.tsx lines 86 to 89: winner starts as the
first body of the pair; the second body wins if it is compact and the
first is not, or else if it is strictly heavier and the first is not
compact.  Returns true when the first body of the pair is the winner. -/
def selectWinnerA (a b : Body) : Bool :=
  if isBH b.type && ! isBH a.type then false
  else if decide (a.mass < b.mass) && ! isBH a.type then false
  else true

/-- Pairwise softened gravity of App.tsx lines 94 to 105: one force
magnitude is computed and applied to the first body with a plus sign and
to the second with a minus sign, scaled by each inverse mass and dt. -/
def gravityStep (sqrtQ : ℚ → ℚ) (dt : ℚ) (a b : Body) : Body × Body :=
  let dx := b.position.x - a.position.x
  let dy := b.position.y - a.position.y
  let dz := b.position.z - a.position.z
  let distSq := dx * dx + dy * dy + dz * dz
  let dist := sqrtQ distSq
  let force := G * a.mass * b.mass / (distSq + SOFTENING)
  let fx := force * dx / dist
  let fy := force * dy / dist
  let fz := force * dz / dist
  ({ a with velocity :=
      ⟨a.velocity.x + fx / a.mass * dt,
       a.velocity.y + fy / a.mass * dt,
       a.velocity.z + fz / a.mass * dt⟩ },
   { b with velocity :=
      ⟨b.velocity.x - fx / b.mass * dt,
       b.velocity.y - fy / b.mass * dt,
       b.velocity.z - fz / b.mass * dt⟩ })

/-- Orbital capture damping of App.tsx lines 109 to 157, applied by the
caller only inside the capture annulus.  Radial speed decides a strong or
weak damping factor; the damping impulse is split between the bodies in
proportion to the mass of the other body. -/
def dampingStep (sqrtQ : ℚ → ℚ) (dt : ℚ) (a b : Body) : Body × Body :=
  let dx := b.position.x - a.position.x
  let dy := b.position.y - a.position.y
  let dz := b.position.z - a.position.z
  let distSq := dx * dx + dy * dy + dz * dz
  let dist := sqrtQ distSq
  let relVx := b.velocity.x - a.velocity.x
  let relVy := b.velocity.y - a.velocity.y
  let relVz := b.velocity.z - a.velocity.z
  let radialVel := relVx * (dx / dist) + relVy * (dy / dist) + relVz * (dz / dist)
  let damping := if 0 < radialVel then 1/10 * dt else 1/200 * dt
  let fDampX := relVx * damping
  let fDampY := relVy * damping
  let fDampZ := relVz * damping
  ({ a with velocity :=
      ⟨a.velocity.x + fDampX * (b.mass / (a.mass + b.mass)),
       a.velocity.y + fDampY * (b.mass / (a.mass + b.mass)),
       a.velocity.z + fDampZ * (b.mass / (a.mass + b.mass))⟩ },
   { b with velocity :=
      ⟨b.velocity.x - fDampX * (a.mass / (a.mass + b.mass)),
       b.velocity.y - fDampY * (a.mass / (a.mass + b.mass)),
       b.velocity.z - fDampZ * (a.mass / (a.mass + b.mass))⟩ })

/-- Final merger of App.tsx lines 161 to 170: the winner takes the
mass-weighted average velocity, the summed mass, and the cube root of the
sum of cubed radii.  The cube root oracle stands for the Math.pow call
with exponent one third. -/
def mergeBodies (cbrt : ℚ → ℚ) (w l : Body) : Body :=
  { w with
    velocity :=
      ⟨(w.velocity.x * w.mass + l.velocity.x * l.mass) / (w.mass + l.mass),
       (w.velocity.y * w.mass + l.velocity.y * l.mass) / (w.mass + l.mass),
       (w.velocity.z * w.mass + l.velocity.z * l.mass) / (w.mass + l.mass)⟩,
    mass := w.mass + l.mass,
    radius := cbrt (w.radius ^ 3 + l.radius ^ 3) }

/-- Feeding branch body updates of App.tsx lines 179 to 190: the loser is
marked as consumed by the winner and shredding, and loses spiral drag
velocity.  The drag always subtracts the relative velocity of the second
body minus the first, regardless of which of the two is the loser. -/
def feedStep (dt : ℚ) (a b : Body) (winnerIsA : Bool) : Body × Body :=
  let relVx := b.velocity.x - a.velocity.x
  let relVy := b.velocity.y - a.velocity.y
  let relVz := b.velocity.z - a.velocity.z
  let spiralDrag := 1/20 * dt
  if winnerIsA then
    (a,
     { b with
       consumedBy := some a.id,
       isShredding := true,
       velocity :=
        ⟨b.velocity.x - relVx * spiralDrag,
         b.velocity.y - relVy * spiralDrag,
         b.velocity.z - relVz * spiralDrag⟩ })
  else
    ({ a with
       consumedBy := some b.id,
       isShredding := true,
       velocity :=
        ⟨a.velocity.x - relVx * spiralDrag,
         a.velocity.y - relVy * spiralDrag,
         a.velocity.z - relVz * spiralDrag⟩ },
     b)

/-- Result of evaluating one unordered pair: the two updated bodies, an
optional merger event carrying winner and loser ids, and an optional mass
transfer event carrying source id, target id and amount. -/
structure PairOutcome where
  a : Body
  b : Body
  merge : Option (ℕ × ℕ)
  feed : Option (ℕ × ℕ × ℚ)
deriving DecidableEq, Repr

/-- One pair evaluation of the inner physics loop, App.tsx lines 62 to
192: gravity always applies; damping applies strictly between the merge
threshold and the capture radius; then either a merge fires (below the
merge threshold), or feeding fires (below the feeding threshold, which is
nonzero only when a compact object is involved, and only while the loser
mass exceeds the gate of one tenth), or nothing more happens. -/
def pairStep (sqrtQ cbrt : ℚ → ℚ) (dt : ℚ) (a b : Body) : PairOutcome :=
  let distSq := distSqOf a b
  let dist := sqrtQ distSq
  let combinedRadius := a.radius + b.radius
  let mergeThreshold := combinedRadius * (2/5)
  let captureRadius := combinedRadius * 6
  let feedingThreshold :=
    combinedRadius * (if isBH a.type || isBH b.type then 8 else 0)
  let winnerIsA := selectWinnerA a b
  let g := gravityStep sqrtQ dt a b
  let p :=
    if dist < captureRadius ∧ mergeThreshold < dist then
      dampingStep sqrtQ dt g.1 g.2
    else g
  if dist < mergeThreshold then
    if winnerIsA then
      let wNew := mergeBodies cbrt p.1 p.2
      ⟨wNew, p.2, some (wNew.id, p.2.id), none⟩
    else
      let wNew := mergeBodies cbrt p.2 p.1
      ⟨p.1, wNew, some (wNew.id, p.1.id), none⟩
  else if dist < feedingThreshold then
    let l := if winnerIsA then p.2 else p.1
    let w := if winnerIsA then p.1 else p.2
    if 1/10 < l.mass then
      let q := feedStep dt p.1 p.2 winnerIsA
      ⟨q.1, q.2, none, some (l.id, w.id, 1/10 * dt)⟩
    else ⟨p.1, p.2, none, none⟩
  else ⟨p.1, p.2, none, none⟩

/-- Accumulated state of the double pair loop: current body array, the
merger event if one has fired (after which the source returns and no
further pair is evaluated), and the mass transfer events fired so far. -/
structure LoopState where
  stars : List Body
  merged : Option (ℕ × ℕ)
  feeds : List (ℕ × ℕ × ℚ)
deriving Repr

/-- One iteration of the inner loop body for indices i and j: skipped
entirely once a merger has fired, mirroring the early return of App.tsx
line 172. -/
def stepPair (sqrtQ cbrt : ℚ → ℚ) (dt : ℚ) (s : LoopState) (i j : ℕ) : LoopState :=
  if s.merged.isSome then s
  else
    match s.stars[i]?, s.stars[j]? with
    | some a, some b =>
      let out := pairStep sqrtQ cbrt dt a b
      { stars := (s.stars.set i out.a).set j out.b,
        merged := out.merge,
        feeds := match out.feed with
          | some f => s.feeds ++ [f]
          | none => s.feeds }
    | _, _ => s

/-- The double loop of App.tsx lines 58 to 194 over all index pairs i
less than j, in source order. -/
def pairPhase (sqrtQ cbrt : ℚ → ℚ) (dt : ℚ) (stars : List Body) : LoopState :=
  (List.range stars.length).foldl
    (fun st i =>
      (List.range stars.length).foldl
        (fun st2 j => if i < j then stepPair sqrtQ cbrt dt st2 i j else st2)
        st)
    ⟨stars, none, []⟩

/-- Age update of App.tsx lines 52 to 56: ages advance at ten times dt,
only when dt is positive. -/
def agePass (dt : ℚ) (stars : List Body) : List Body :=
  if 0 < dt then stars.map (fun s => { s with age := s.age + dt * 10 }) else stars

/-- Position integration of App.tsx lines 197 to 202: every position
advances by its current velocity times dt. -/
def posPass (dt : ℚ) (stars : List Body) : List Body :=
  stars.map (fun s =>
    { s with position :=
        ⟨s.position.x + s.velocity.x * dt,
         s.position.y + s.velocity.y * dt,
         s.position.z + s.velocity.z * dt⟩ })

/-- Result of one frame of the physics system: updated bodies plus the
events handed to the React callbacks. -/
structure TickResult where
  stars : List Body
  merged : Option (ℕ × ℕ)
  feeds : List (ℕ × ℕ × ℚ)
deriving Repr

/-- One frame of PhysicsSystem, App.tsx lines 46 to 203: dt is the frame
delta times the time scale; a zero dt skips everything; otherwise ages
update (forward time only), the pair loop runs, and positions advance in
a separate final pass unless a merger fired, in which case the source
returned early and positions are left untouched. -/
def tick (sqrtQ cbrt : ℚ → ℚ) (delta timeScale : ℚ) (stars : List Body) : TickResult :=
  let dt := delta * timeScale
  if dt = 0 then ⟨stars, none, []⟩
  else
    let st := pairPhase sqrtQ cbrt dt (agePass dt stars)
    if st.merged.isSome then ⟨st.stars, st.merged, st.feeds⟩
    else ⟨posPass dt st.stars, none, st.feeds⟩

/-- Iterated ticks with a fixed oracle pair, frame delta and time scale,
keeping only the body array between frames. -/
def tickN (sqrtQ cbrt : ℚ → ℚ) (delta timeScale : ℚ) : ℕ → List Body → List Body
  | 0, stars => stars
  | n + 1, stars => tickN sqrtQ cbrt delta timeScale n (tick sqrtQ cbrt delta timeScale stars).stars

/-- Merger registry handler of App.tsx lines 337 to 358: when both winner
and loser are found, the loser is filtered out of the registry.  No other
body is modified; in particular no consumedBy field is repointed. -/
def handleMerger (winnerId loserId : ℕ) (stars : List Body) : List Body :=
  match stars.find? (fun s => s.id == winnerId), stars.find? (fun s => s.id == loserId) with
  | some _, some _ => stars.filter (fun s => ! (s.id == loserId))
  | _, _ => stars

/-- Mass transfer handler of App.tsx lines 360 to 386: when source and
target are both present and the source is not yet shredding, the source
is replaced by a copy with consumedBy pointing at the target and the
shredding flag set.  The transferred amount is never applied to any mass
field, and a source already shredding leaves the registry unchanged. -/
def handleMassTransfer (sourceId targetId : ℕ) (amount : ℚ) (stars : List Body) : List Body :=
  match stars.findIdx? (fun s => s.id == sourceId), stars.findIdx? (fun s => s.id == targetId) with
  | some si, some _ =>
    match stars[si]? with
    | some src =>
      if src.isShredding then stars
      else stars.set si { src with consumedBy := some targetId, isShredding := true }
    | none => stars
  | _, _ => stars

/-- Mass band classifier of App.tsx lines 414 to 458, archetype part: a
pure function of the cloud mass and one uniform random draw. -/
def classify (mass rand : ℚ) : StarType :=
  if mass < 15 then StarType.brownDwarf
  else if mass < 30 then StarType.redDwarf
  else if mass < 60 then
    (if 4/5 < rand then StarType.binaryStar else StarType.yellowDwarf)
  else if mass < 80 then StarType.blueGiant
  else if mass < 90 then StarType.neutronStar
  else if mass < 98 then StarType.blackHole
  else StarType.quasar

/-- Radius assignment of the same classifier chain, App.tsx lines 414 to
458. -/
def classifyRadius (mass rand : ℚ) : ℚ :=
  if mass < 15 then 3/5
  else if mass < 30 then 4/5
  else if mass < 60 then (if 4/5 < rand then 6/5 else 3/2)
  else if mass < 80 then 5/2
  else if mass < 90 then 1/2
  else if mass < 98 then 1
  else 3

/-- Star materialization of App.tsx lines 479 to 495: the new star takes
the cloud id and position, the classified type and radius, age zero, no
predator and no shredding. -/
def mkStar (cloudId : ℕ) (pos vel : Vec3) (mass rand : ℚ) : Body :=
  { id := cloudId,
    position := pos,
    velocity := vel,
    mass := mass,
    type := classify mass rand,
    radius := classifyRadius mass rand,
    age := 0,
    consumedBy := none,
    isShredding := false }

/-- The body the pair evaluation treats as winner, following the aliasing
of App.tsx lines 86 to 89: the first slot if selectWinnerA holds, else
the second slot. -/
def pairWinner (sqrtQ cbrt : ℚ → ℚ) (dt : ℚ) (a b : Body) : Body :=
  if selectWinnerA a b then (pairStep sqrtQ cbrt dt a b).a
  else (pairStep sqrtQ cbrt dt a b).b

/-- Modelled from the spec claim wording for comparison with the code:
if exactly one body of the pair is compact it is the predator regardless
of mass; otherwise the more massive body is the predator, with mass ties
going to the first-indexed body. -/
def selectWinnerClaim (a b : Body) : Bool :=
  if isBH a.type && ! isBH b.type then true
  else if isBH b.type && ! isBH a.type then false
  else if decide (a.mass < b.mass) then false
  else true

/-- Amended selection rule actually implemented by the code: a compact
first body always wins; otherwise a compact second body wins; otherwise
the strictly heavier body wins and ties go to the first body. -/
def selectWinnerAmended (a b : Body) : Bool :=
  if isBH a.type then true
  else if isBH b.type then false
  else ! decide (a.mass < b.mass)

/-- Shredding flags never regress from one body state to the next: a set
shredding flag stays set and a present predator reference stays present
(it may be repointed, never cleared). -/
def flagsLe (a a' : Body) : Prop :=
  (a.isShredding = true → a'.isShredding = true)
  ∧ (a.consumedBy.isSome = true → a'.consumedBy.isSome = true)

/-- Pointwise flag monotonicity between two registry snapshots of the
same length. -/
def listFlagsLe (l l' : List Body) : Prop :=
  l.length = l'.length
  ∧ ∀ (i : ℕ) (a a' : Body), l[i]? = some a → l'[i]? = some a' → flagsLe a a'

/-- Square root oracle exact at 25, the squared separation used by the
concrete gravity and feeding scenarios below. -/
def sqrt25 : ℚ → ℚ := fun _ => 5

/-- Square root oracle exact at 9 divided by 100, the squared separation
of the concrete merge scenarios below. -/
def sqrtSmall : ℚ → ℚ := fun _ => 3/10

/-- Square root oracle exact at 9 divided by 25, used by the merge-tick
counterexample. -/
def sqrtMed : ℚ → ℚ := fun _ => 3/5

/-- Cube root oracle exact at 1, used by merge witnesses whose radii cube
to 1. -/
def cbrtOne : ℚ → ℚ := fun _ => 1

/-- Cube root oracle used where the merged radius value is irrelevant. -/
def cbrtZero : ℚ → ℚ := fun _ => 0

/-- Sample body: a yellow dwarf of mass 40 sitting at the origin. -/
def dwarfFirst : Body :=
  ⟨0, ⟨0, 0, 0⟩, ⟨0, 0, 0⟩, 40, StarType.yellowDwarf, 3/2, 0, none, false⟩

/-- Sample body: a black hole of mass 90 at distance 5 on the x axis. -/
def bhSecond : Body :=
  ⟨1, ⟨5, 0, 0⟩, ⟨0, 0, 0⟩, 90, StarType.blackHole, 1, 0, none, false⟩

/-- Sample body: a black hole of mass 90 at the origin. -/
def bhFirst : Body :=
  ⟨0, ⟨0, 0, 0⟩, ⟨0, 0, 0⟩, 90, StarType.blackHole, 1, 0, none, false⟩

/-- Sample body: a yellow dwarf of mass 40 at distance 5 on the x axis. -/
def dwarfSecond : Body :=
  ⟨1, ⟨5, 0, 0⟩, ⟨0, 0, 0⟩, 40, StarType.yellowDwarf, 3/2, 0, none, false⟩

/-- Sample body for the merge scenarios: mass 20, radius 1, moving along
the x axis. -/
def mergerA : Body :=
  ⟨0, ⟨0, 0, 0⟩, ⟨1, 0, 0⟩, 20, StarType.yellowDwarf, 1, 0, none, false⟩

/-- Sample body for the merge-tick counterexample: mass 10, radius three
halves, well inside the merge threshold of the pair. -/
def mergerB : Body :=
  ⟨1, ⟨3/5, 0, 0⟩, ⟨0, 0, 0⟩, 10, StarType.redDwarf, 3/2, 0, none, false⟩

/-- Sample body for the merge conservation witness: unit mass and radius. -/
def consA : Body :=
  ⟨0, ⟨0, 0, 0⟩, ⟨1, 2, 3⟩, 1, StarType.yellowDwarf, 1, 0, none, false⟩

/-- Sample body for the merge conservation witness: unit mass, radius
zero so that the cubed radii sum to a perfect rational cube. -/
def consB : Body :=
  ⟨1, ⟨3/10, 0, 0⟩, ⟨4, 5, 6⟩, 1, StarType.redDwarf, 0, 0, none, false⟩

/-- Sample bodies for the third-law witness. -/
def newtA : Body :=
  ⟨0, ⟨0, 0, 0⟩, ⟨0, 0, 0⟩, 2, StarType.redDwarf, 1, 0, none, false⟩

/-- Second sample body for the third-law witness, at distance 5 via a
3-4-0 displacement. -/
def newtB : Body :=
  ⟨1, ⟨3, 4, 0⟩, ⟨0, 0, 0⟩, 3, StarType.blueGiant, 1, 0, none, false⟩

/-- Sample compact pair for the predator-selection counterexample: two
black holes where the second is strictly heavier. -/
def cxBH1 : Body :=
  ⟨0, ⟨0, 0, 0⟩, ⟨0, 0, 0⟩, 90, StarType.blackHole, 1, 0, none, false⟩

/-- Heavier second black hole of the predator-selection counterexample. -/
def cxBH2 : Body :=
  ⟨1, ⟨9, 0, 0⟩, ⟨0, 0, 0⟩, 95, StarType.blackHole, 1, 0, none, false⟩

/-- Winner body of the dangling-reference scenario. -/
def regWinner : Body :=
  ⟨0, ⟨0, 0, 0⟩, ⟨0, 0, 0⟩, 90, StarType.blackHole, 1, 0, none, false⟩

/-- Loser body of the dangling-reference scenario. -/
def regLoser : Body :=
  ⟨1, ⟨1, 0, 0⟩, ⟨0, 0, 0⟩, 40, StarType.yellowDwarf, 3/2, 0, none, false⟩

/-- Third body of the dangling-reference scenario, marked as being
consumed by the loser. -/
def regThird : Body :=
  ⟨2, ⟨9, 0, 0⟩, ⟨0, 0, 0⟩, 20, StarType.redDwarf, 4/5, 0, some 1, true⟩

/-- Sample shredding body for the flag monotonicity witness. -/
def shredBody : Body :=
  ⟨7, ⟨0, 0, 0⟩, ⟨1, 0, 0⟩, 5, StarType.redDwarf, 4/5, 0, some 3, true⟩

/-- The shredding sample body after one solo tick of unit delta and unit
time scale: age advanced by ten, position advanced by the velocity. -/
def shredBodyAfter : Body :=
  ⟨7, ⟨1, 0, 0⟩, ⟨1, 0, 0⟩, 5, StarType.redDwarf, 4/5, 10, some 3, true⟩

/-- C6: The classifier is a pure function of cloud mass and one uniform
random draw, mapping the mass bands below 15, 15 to 30, 30 to 60 (with
the binary split on a draw above four fifths), 60 to 80, 80 to 90, 90 to
98 and at least 98 to brown dwarf, red dwarf, yellow dwarf or binary
star, blue giant, neutron star, black hole and quasar respectively; in
particular mass 10 always gives a brown dwarf, mass 50 with a draw above
four fifths always gives a binary star, and mass 99 always gives a
quasar. -/
theorem classifier_bands (mass rand : ℚ) :
    (mass < 15 → classify mass rand = StarType.brownDwarf)
    ∧ (15 ≤ mass → mass < 30 → classify mass rand = StarType.redDwarf)
    ∧ (30 ≤ mass → mass < 60 → 4/5 < rand → classify mass rand = StarType.binaryStar)
    ∧ (30 ≤ mass → mass < 60 → rand ≤ 4/5 → classify mass rand = StarType.yellowDwarf)
    ∧ (60 ≤ mass → mass < 80 → classify mass rand = StarType.blueGiant)
    ∧ (80 ≤ mass → mass < 90 → classify mass rand = StarType.neutronStar)
    ∧ (90 ≤ mass → mass < 98 → classify mass rand = StarType.blackHole)
    ∧ (98 ≤ mass → classify mass rand = StarType.quasar)
    ∧ classify 10 rand = StarType.brownDwarf
    ∧ (4/5 < rand → classify 50 rand = StarType.binaryStar)
    ∧ classify 99 rand = StarType.quasar := by
  unfold classify
  refine ⟨?_, ?_, ?_, ?_, ?_, ?_, ?_, ?_, ?_, ?_, ?_⟩ <;>
    intros <;> split_ifs <;> first | rfl | (exfalso; linarith)

/-- Witness for the classifier band theorem at mass 10 and draw one
half. -/
theorem classifier_bands_witness :
    (10 : ℚ) < 15 ∧ classify 10 (1/2) = StarType.brownDwarf :=
  ⟨by norm_num, (classifier_bands 10 (1/2)).1 (by norm_num)⟩

/-- C7: With time scale zero, dt vanishes and the frame callback returns
before touching anything, so any number of ticks leaves every body, and
in particular every position, velocity, mass and age, unchanged. -/
theorem paused_time_scale_freezes (sqrtQ cbrt : ℚ → ℚ) (delta : ℚ) (n : ℕ)
    (stars : List Body) :
    tickN sqrtQ cbrt delta 0 n stars = stars := by
  induction n generalizing stars with
  | zero => rfl
  | succ m ih =>
      have h : tick sqrtQ cbrt delta 0 stars = ⟨stars, none, []⟩ := by
        unfold tick
        simp
      show tickN sqrtQ cbrt delta 0 m (tick sqrtQ cbrt delta 0 stars).stars = stars
      rw [h]
      exact ih stars

/-- C5 counterexample: for a pair of two compact objects where the second
is strictly heavier, the claimed rule picks the heavier second body but
the code keeps the first body as predator, because the second branch of
the selection requires the first body to be non-compact. -/
theorem predator_selection_counterexample :
    isBH cxBH1.type = true ∧ isBH cxBH2.type = true ∧ cxBH1.mass < cxBH2.mass
    ∧ selectWinnerA cxBH1 cxBH2 = true
    ∧ selectWinnerClaim cxBH1 cxBH2 = false := by
  have hbh : isBH StarType.blackHole = true := rfl
  refine ⟨rfl, rfl, by norm_num [cxBH1, cxBH2], ?_, ?_⟩ <;>
    norm_num [selectWinnerA, selectWinnerClaim, cxBH1, cxBH2, hbh]

/-- C5 amended: the selection the code implements is: a compact first
body is always the predator (even against a heavier compact second
body); otherwise a compact second body is the predator; otherwise the
strictly heavier body is the predator, with ties going to the first
body. -/
theorem predator_selection_amended (a b : Body) :
    selectWinnerA a b = selectWinnerAmended a b := by
  unfold selectWinnerA selectWinnerAmended
  cases hA : isBH a.type <;> cases hB : isBH b.type <;>
    cases hm : decide (a.mass < b.mass) <;> simp [hA, hB, hm]

/-- C9 counterexample: merging winner id 0 with loser id 1 while a third
body references the loser as predator removes the loser but leaves the
third body pointing at the removed id 1, not at the winner id 0. -/
theorem merger_dangling_reference_counterexample :
    (handleMerger 0 1 [regWinner, regLoser, regThird]).map (fun s => s.id) = [0, 2]
    ∧ ((handleMerger 0 1 [regWinner, regLoser, regThird]).find?
        (fun s => s.id == 2)).map Body.consumedBy = some (some 1)
    ∧ regThird.consumedBy = some 1
    ∧ ¬ regThird.consumedBy = some 0 := by
  refine ⟨by decide, by decide, rfl, by decide⟩

/-- C9 amended: when both winner and loser are present, the merger
handler only filters the loser out of the registry; every surviving body
is one of the original bodies, unmodified, so a consumedBy reference to
the removed loser is left dangling rather than repointed. -/
theorem merger_no_repointing (winnerId loserId : ℕ) (stars : List Body)
    (hw : (stars.find? (fun s => s.id == winnerId)).isSome = true)
    (hl : (stars.find? (fun s => s.id == loserId)).isSome = true) :
    handleMerger winnerId loserId stars = stars.filter (fun s => ! (s.id == loserId))
    ∧ ∀ s ∈ handleMerger winnerId loserId stars, s ∈ stars := by
  obtain ⟨w, hw'⟩ := Option.isSome_iff_exists.mp hw
  obtain ⟨l, hl'⟩ := Option.isSome_iff_exists.mp hl
  have heq : handleMerger winnerId loserId stars
      = stars.filter (fun s => ! (s.id == loserId)) := by
    unfold handleMerger
    rw [hw', hl']
  refine ⟨heq, fun s hs => ?_⟩
  rw [heq] at hs
  exact List.mem_of_mem_filter hs

/-- Witness for the merger handler theorem on the concrete
dangling-reference scenario. -/
theorem merger_no_repointing_witness :
    (([regWinner, regLoser, regThird].find? (fun s => s.id == 0)).isSome = true)
    ∧ (([regWinner, regLoser, regThird].find? (fun s => s.id == 1)).isSome = true)
    ∧ (handleMerger 0 1 [regWinner, regLoser, regThird]
        = [regWinner, regLoser, regThird].filter (fun s => ! (s.id == 1))
      ∧ ∀ s ∈ handleMerger 0 1 [regWinner, regLoser, regThird],
          s ∈ [regWinner, regLoser, regThird]) :=
  ⟨by decide, by decide, merger_no_repointing 0 1 _ (by decide) (by decide)⟩

set_option maxHeartbeats 4000000 in
/-- C2: evaluation of the black hole feeding scenario of the claim, a
black hole of mass 90 first in the array and a yellow dwarf of mass 40
at distance 5, inside the feeding zone and outside the merge zone, with
dt equal to one.  The tick fires the transfer event and sets the dwarf
flags, but after the tick and after the transfer handler runs, the dwarf
mass is still exactly 40: no code path ever applies the transferred
amount to any mass. -/
theorem feeding_mass_unchanged_eval :
    (tick sqrt25 cbrtZero 1 1 [bhFirst, dwarfSecond]).feeds = [(1, 0, 1/10 * 1)]
    ∧ ((handleMassTransfer 1 0 (1/10 * 1)
          (tick sqrt25 cbrtZero 1 1 [bhFirst, dwarfSecond]).stars).find?
        (fun s => s.id == 1)).map Body.mass = some 40
    ∧ (((tick sqrt25 cbrtZero 1 1 [bhFirst, dwarfSecond]).stars.find?
        (fun s => s.id == 1)).map Body.isShredding) = some true
    ∧ (((tick sqrt25 cbrtZero 1 1 [bhFirst, dwarfSecond]).stars.find?
        (fun s => s.id == 1)).map Body.consumedBy) = some (some 0) := by
  have hbh : isBH StarType.blackHole = true := rfl
  have hyd : isBH StarType.yellowDwarf = false := rfl
  have hr : List.range 2 = [0, 1] := rfl
  norm_num [tick, pairPhase, stepPair, agePass, posPass, handleMassTransfer,
    pairStep, gravityStep, dampingStep, mergeBodies, feedStep, selectWinnerA,
    distSqOf, sqrt25, cbrtZero, bhFirst, dwarfSecond, G, SOFTENING, hbh, hyd, hr,
    List.find?, List.findIdx?]

/-- C8: evaluation of a feeding pair where the loser is the first body
of the pair (yellow dwarf first, black hole second, distance 5).  The
feeding fires and only the loser velocity is changed beyond damping, but
the drag subtracts the fixed difference of second minus first velocity,
which for a first-slot loser points away from the winner: the squared
relative velocity after the drag is strictly larger than just before it,
contradicting the inward spiral the code comment and the claim
describe. -/
theorem spiral_drag_outward_eval :
    ((pairStep sqrt25 cbrtZero 1 dwarfFirst bhSecond).feed).isSome = true
    ∧ (pairStep sqrt25 cbrtZero 1 dwarfFirst bhSecond).a.isShredding = true
    ∧ (pairStep sqrt25 cbrtZero 1 dwarfFirst bhSecond).a.consumedBy = some 1
    ∧ (pairStep sqrt25 cbrtZero 1 dwarfFirst bhSecond).b
        = (dampingStep sqrt25 1 (gravityStep sqrt25 1 dwarfFirst bhSecond).1
            (gravityStep sqrt25 1 dwarfFirst bhSecond).2).2
    ∧ ((dampingStep sqrt25 1 (gravityStep sqrt25 1 dwarfFirst bhSecond).1
          (gravityStep sqrt25 1 dwarfFirst bhSecond).2).2.velocity.x
        - (dampingStep sqrt25 1 (gravityStep sqrt25 1 dwarfFirst bhSecond).1
            (gravityStep sqrt25 1 dwarfFirst bhSecond).2).1.velocity.x) ^ 2
      < ((pairStep sqrt25 cbrtZero 1 dwarfFirst bhSecond).b.velocity.x
          - (pairStep sqrt25 cbrtZero 1 dwarfFirst bhSecond).a.velocity.x) ^ 2 := by
  have hbh : isBH StarType.blackHole = true := rfl
  have hyd : isBH StarType.yellowDwarf = false := rfl
  norm_num [pairStep, gravityStep, dampingStep, mergeBodies, feedStep, selectWinnerA,
    distSqOf, sqrt25, cbrtZero, dwarfFirst, bhSecond, G, SOFTENING, hbh, hyd]

set_option maxHeartbeats 4000000 in
/-- C4 counterexample: a tick in which a pair merges returns before the
position pass, so no position advances even though dt is one and the
merged winner has nonzero velocity of two thirds; the claimed update
would have moved it. -/
theorem merge_tick_skips_positions_counterexample :
    (tick sqrtMed cbrtZero 1 1 [mergerA, mergerB]).merged = some (0, 1)
    ∧ ((tick sqrtMed cbrtZero 1 1 [mergerA, mergerB]).stars[0]?).map
        (fun s => s.position.x) = some 0
    ∧ ((tick sqrtMed cbrtZero 1 1 [mergerA, mergerB]).stars[0]?).map
        (fun s => s.velocity.x) = some (2/3)
    ∧ ¬ ((0 : ℚ) = 0 + 2/3 * (1 * 1)) := by
  have hyd : isBH StarType.yellowDwarf = false := rfl
  have hrd : isBH StarType.redDwarf = false := rfl
  have hr : List.range 2 = [0, 1] := rfl
  norm_num [tick, pairPhase, stepPair, agePass, posPass,
    pairStep, gravityStep, dampingStep, mergeBodies, feedStep, selectWinnerA,
    distSqOf, sqrtMed, cbrtZero, mergerA, mergerB, G, SOFTENING, hyd, hrd, hr]

theorem sq_norm_of_scaled (force dx dy dz d : ℚ) (hd : d ≠ 0)
    (h : d * d = dx * dx + dy * dy + dz * dz) :
    (force * dx / d) ^ 2 + (force * dy / d) ^ 2 + (force * dz / d) ^ 2 = force ^ 2 := by
  field_simp
  linear_combination -(force ^ 2) * h

theorem impulse_pair_cancels (m1 m2 t q v1 v2 : ℚ) (h1 : m1 ≠ 0) (h2 : m2 ≠ 0) :
    m1 * ((v1 + q / m1 * t) - v1) + m2 * ((v2 - q / m2 * t) - v2) = 0 := by
  field_simp
  ring

theorem impulse_recovers_force (m t v q : ℚ) (hm : m ≠ 0) (ht : t ≠ 0) :
    m * ((v + q / m * t) - v) / t = q := by
  field_simp
  ring

/-- C3: For every pair at non-degenerate separation, the gravitational
impulse the engine applies to the first body is the exact negation of the
impulse applied to the second (componentwise, weighted by the masses the
engine divides by), and the magnitude of the applied force equals
G times the two masses over the squared distance plus the softening
constant, stated via squared norms to stay inside the rationals. -/
theorem gravity_newton_third_law (sqrtQ : ℚ → ℚ) (dt : ℚ) (a b : Body)
    (hsq : sqrtQ (distSqOf a b) * sqrtQ (distSqOf a b) = distSqOf a b)
    (hd : 0 < sqrtQ (distSqOf a b))
    (hma : a.mass ≠ 0) (hmb : b.mass ≠ 0) (hdt : dt ≠ 0) :
    (a.mass * ((gravityStep sqrtQ dt a b).1.velocity.x - a.velocity.x)
       + b.mass * ((gravityStep sqrtQ dt a b).2.velocity.x - b.velocity.x) = 0)
    ∧ (a.mass * ((gravityStep sqrtQ dt a b).1.velocity.y - a.velocity.y)
       + b.mass * ((gravityStep sqrtQ dt a b).2.velocity.y - b.velocity.y) = 0)
    ∧ (a.mass * ((gravityStep sqrtQ dt a b).1.velocity.z - a.velocity.z)
       + b.mass * ((gravityStep sqrtQ dt a b).2.velocity.z - b.velocity.z) = 0)
    ∧ (a.mass * ((gravityStep sqrtQ dt a b).1.velocity.x - a.velocity.x) / dt) ^ 2
      + (a.mass * ((gravityStep sqrtQ dt a b).1.velocity.y - a.velocity.y) / dt) ^ 2
      + (a.mass * ((gravityStep sqrtQ dt a b).1.velocity.z - a.velocity.z) / dt) ^ 2
      = (G * a.mass * b.mass / (distSqOf a b + SOFTENING)) ^ 2 := by
  simp only [distSqOf] at hsq hd ⊢
  simp only [gravityStep]
  have hdne : sqrtQ ((b.position.x - a.position.x) * (b.position.x - a.position.x) +
      (b.position.y - a.position.y) * (b.position.y - a.position.y) +
      (b.position.z - a.position.z) * (b.position.z - a.position.z)) ≠ 0 := ne_of_gt hd
  refine ⟨impulse_pair_cancels _ _ _ _ _ _ hma hmb,
          impulse_pair_cancels _ _ _ _ _ _ hma hmb,
          impulse_pair_cancels _ _ _ _ _ _ hma hmb, ?_⟩
  rw [impulse_recovers_force _ _ _ _ hma hdt, impulse_recovers_force _ _ _ _ hma hdt,
    impulse_recovers_force _ _ _ _ hma hdt]
  exact sq_norm_of_scaled _ _ _ _ _ hdne hsq

theorem weighted_avg_after_impulse (m1 m2 t q v1 v2 : ℚ) (h1 : m1 ≠ 0) (h2 : m2 ≠ 0) :
    ((v1 + q / m1 * t) * m1 + (v2 - q / m2 * t) * m2) / (m1 + m2)
      = (m1 * v1 + m2 * v2) / (m1 + m2) := by
  have h : (v1 + q / m1 * t) * m1 + (v2 - q / m2 * t) * m2 = m1 * v1 + m2 * v2 := by
    field_simp
    ring
  rw [h]

theorem weighted_avg_after_impulse_swapped (m1 m2 t q v1 v2 : ℚ) (h1 : m1 ≠ 0) (h2 : m2 ≠ 0) :
    ((v2 - q / m2 * t) * m2 + (v1 + q / m1 * t) * m1) / (m2 + m1)
      = (m1 * v1 + m2 * v2) / (m1 + m2) := by
  rw [add_comm m2 m1]
  have h : (v2 - q / m2 * t) * m2 + (v1 + q / m1 * t) * m1 = m1 * v1 + m2 * v2 := by
    field_simp
    ring
  rw [h]

/-- C1: For every merging pair, the winner ends the pair evaluation with
mass equal to the sum of the two prior masses, velocity equal to the
mass-weighted average of the two prior velocities (gravity applied
earlier in the same pair evaluation conserves momentum, so averaging the
post-gravity velocities still yields the average of the prior ones), and
a radius whose cube is the sum of the two prior cubed radii, assuming
the cube root oracle is exact there. -/
theorem merger_conserves_mass_momentum_radius (sqrtQ cbrt : ℚ → ℚ) (dt : ℚ) (a b : Body)
    (hma : 0 < a.mass) (hmb : 0 < b.mass)
    (hmerge : sqrtQ (distSqOf a b) < (a.radius + b.radius) * (2/5))
    (hcbrt : cbrt (a.radius ^ 3 + b.radius ^ 3) ^ 3 = a.radius ^ 3 + b.radius ^ 3) :
    (pairWinner sqrtQ cbrt dt a b).mass = a.mass + b.mass
    ∧ (pairWinner sqrtQ cbrt dt a b).velocity.x
        = (a.mass * a.velocity.x + b.mass * b.velocity.x) / (a.mass + b.mass)
    ∧ (pairWinner sqrtQ cbrt dt a b).velocity.y
        = (a.mass * a.velocity.y + b.mass * b.velocity.y) / (a.mass + b.mass)
    ∧ (pairWinner sqrtQ cbrt dt a b).velocity.z
        = (a.mass * a.velocity.z + b.mass * b.velocity.z) / (a.mass + b.mass)
    ∧ (pairWinner sqrtQ cbrt dt a b).radius ^ 3 = a.radius ^ 3 + b.radius ^ 3 := by
  have hdamp : ¬ (sqrtQ (distSqOf a b) < (a.radius + b.radius) * 6
      ∧ (a.radius + b.radius) * (2/5) < sqrtQ (distSqOf a b)) := by
    rintro ⟨-, h2⟩
    linarith
  simp only [pairWinner, pairStep, if_neg hdamp, if_pos hmerge]
  cases hw : selectWinnerA a b <;>
    simp only [hw, if_true, if_false, Bool.false_eq_true, gravityStep, mergeBodies] <;>
    refine ⟨?_, ?_, ?_, ?_, ?_⟩ <;>
    first
      | exact weighted_avg_after_impulse _ _ _ _ _ _ (ne_of_gt hma) (ne_of_gt hmb)
      | exact weighted_avg_after_impulse_swapped _ _ _ _ _ _ (ne_of_gt hma) (ne_of_gt hmb)
      | exact hcbrt
      | (rw [add_comm (b.radius ^ 3) (a.radius ^ 3)]; exact hcbrt)
      | trivial
      | ring

/-- Witness for the third-law theorem: masses 2 and 3 with a 3-4-0
displacement, so the distance 5 is exactly rational. -/
theorem gravity_newton_third_law_witness :
    (sqrt25 (distSqOf newtA newtB) * sqrt25 (distSqOf newtA newtB) = distSqOf newtA newtB
      ∧ 0 < sqrt25 (distSqOf newtA newtB)
      ∧ newtA.mass ≠ 0 ∧ newtB.mass ≠ 0 ∧ (1 : ℚ) ≠ 0)
    ∧ ((newtA.mass * ((gravityStep sqrt25 1 newtA newtB).1.velocity.x - newtA.velocity.x)
         + newtB.mass * ((gravityStep sqrt25 1 newtA newtB).2.velocity.x - newtB.velocity.x) = 0)
      ∧ (newtA.mass * ((gravityStep sqrt25 1 newtA newtB).1.velocity.y - newtA.velocity.y)
         + newtB.mass * ((gravityStep sqrt25 1 newtA newtB).2.velocity.y - newtB.velocity.y) = 0)
      ∧ (newtA.mass * ((gravityStep sqrt25 1 newtA newtB).1.velocity.z - newtA.velocity.z)
         + newtB.mass * ((gravityStep sqrt25 1 newtA newtB).2.velocity.z - newtB.velocity.z) = 0)
      ∧ (newtA.mass * ((gravityStep sqrt25 1 newtA newtB).1.velocity.x - newtA.velocity.x) / 1) ^ 2
        + (newtA.mass * ((gravityStep sqrt25 1 newtA newtB).1.velocity.y - newtA.velocity.y) / 1) ^ 2
        + (newtA.mass * ((gravityStep sqrt25 1 newtA newtB).1.velocity.z - newtA.velocity.z) / 1) ^ 2
        = (G * newtA.mass * newtB.mass / (distSqOf newtA newtB + SOFTENING)) ^ 2) :=
  ⟨⟨by norm_num [sqrt25, distSqOf, newtA, newtB], by norm_num [sqrt25],
    by norm_num [newtA], by norm_num [newtB], by norm_num⟩,
   gravity_newton_third_law sqrt25 1 newtA newtB
     (by norm_num [sqrt25, distSqOf, newtA, newtB]) (by norm_num [sqrt25])
     (by norm_num [newtA]) (by norm_num [newtB]) (by norm_num)⟩

/-- Witness for the merger conservation theorem: unit masses, radii one
and zero, separation three tenths, exact rational roots. -/
theorem merger_conserves_witness :
    (0 < consA.mass ∧ 0 < consB.mass
      ∧ sqrtSmall (distSqOf consA consB) < (consA.radius + consB.radius) * (2/5)
      ∧ cbrtOne (consA.radius ^ 3 + consB.radius ^ 3) ^ 3 = consA.radius ^ 3 + consB.radius ^ 3)
    ∧ ((pairWinner sqrtSmall cbrtOne 1 consA consB).mass = consA.mass + consB.mass
      ∧ (pairWinner sqrtSmall cbrtOne 1 consA consB).velocity.x
          = (consA.mass * consA.velocity.x + consB.mass * consB.velocity.x)
            / (consA.mass + consB.mass)
      ∧ (pairWinner sqrtSmall cbrtOne 1 consA consB).velocity.y
          = (consA.mass * consA.velocity.y + consB.mass * consB.velocity.y)
            / (consA.mass + consB.mass)
      ∧ (pairWinner sqrtSmall cbrtOne 1 consA consB).velocity.z
          = (consA.mass * consA.velocity.z + consB.mass * consB.velocity.z)
            / (consA.mass + consB.mass)
      ∧ (pairWinner sqrtSmall cbrtOne 1 consA consB).radius ^ 3
          = consA.radius ^ 3 + consB.radius ^ 3) :=
  ⟨⟨by norm_num [consA], by norm_num [consB], by norm_num [sqrtSmall, consA, consB],
    by norm_num [cbrtOne, consA, consB]⟩,
   merger_conserves_mass_momentum_radius sqrtSmall cbrtOne 1 consA consB
     (by norm_num [consA]) (by norm_num [consB])
     (by norm_num [sqrtSmall, consA, consB]) (by norm_num [cbrtOne, consA, consB])⟩

theorem foldl_preserves {α σ : Type _} (P : σ → Prop) (f : σ → α → σ)
    (h : ∀ s x, P s → P (f s x)) :
    ∀ (l : List α) (s : σ), P s → P (l.foldl f s) := by
  intro l
  induction l with
  | nil => exact fun s hs => hs
  | cons x xs ih => exact fun s hs => ih _ (h s x hs)

theorem gravityStep_position_fst (sqrtQ : ℚ → ℚ) (dt : ℚ) (a b : Body) :
    (gravityStep sqrtQ dt a b).1.position = a.position := rfl

theorem gravityStep_position_snd (sqrtQ : ℚ → ℚ) (dt : ℚ) (a b : Body) :
    (gravityStep sqrtQ dt a b).2.position = b.position := rfl

theorem dampingStep_position_fst (sqrtQ : ℚ → ℚ) (dt : ℚ) (a b : Body) :
    (dampingStep sqrtQ dt a b).1.position = a.position := rfl

theorem dampingStep_position_snd (sqrtQ : ℚ → ℚ) (dt : ℚ) (a b : Body) :
    (dampingStep sqrtQ dt a b).2.position = b.position := rfl

theorem mergeBodies_position (cbrt : ℚ → ℚ) (w l : Body) :
    (mergeBodies cbrt w l).position = w.position := rfl

theorem feedStep_position_fst (dt : ℚ) (a b : Body) (w : Bool) :
    (feedStep dt a b w).1.position = a.position := by
  cases w <;> rfl

theorem feedStep_position_snd (dt : ℚ) (a b : Body) (w : Bool) :
    (feedStep dt a b w).2.position = b.position := by
  cases w <;> rfl

theorem pairStep_preserves_position (sqrtQ cbrt : ℚ → ℚ) (dt : ℚ) (a b : Body) :
    (pairStep sqrtQ cbrt dt a b).a.position = a.position
    ∧ (pairStep sqrtQ cbrt dt a b).b.position = b.position := by
  simp only [pairStep]
  split_ifs <;>
    simp only [gravityStep_position_fst, gravityStep_position_snd,
      dampingStep_position_fst, dampingStep_position_snd, mergeBodies_position,
      feedStep_position_fst, feedStep_position_snd, and_self]

theorem map_set_same {β : Type _} (f : Body → β) :
    ∀ (l : List Body) (i : ℕ) (x : Body),
      (∀ a, l[i]? = some a → f x = f a) → (l.set i x).map f = l.map f := by
  intro l
  induction l with
  | nil => intro i x _; rfl
  | cons y ys ih =>
    intro i x h
    cases i with
    | zero =>
      have hy : f x = f y := h y List.getElem?_cons_zero
      simp [List.set, hy]
    | succ n =>
      simp only [List.set, List.map_cons]
      rw [ih n x (fun a ha => h a (by simpa using ha))]

theorem stepPair_preserves_position (sqrtQ cbrt : ℚ → ℚ) (dt : ℚ) (st : LoopState)
    (i j : ℕ) :
    (stepPair sqrtQ cbrt dt st i j).stars.map (fun s => s.position)
      = st.stars.map (fun s => s.position) := by
  unfold stepPair
  split
  · rfl
  · split
    · next a b h1 h2 =>
      rw [map_set_same (fun s => s.position) _ j _ ?hj,
          map_set_same (fun s => s.position) _ i _ ?hi]
      case hi =>
        intro c hc
        rw [h1] at hc
        cases hc
        exact (pairStep_preserves_position sqrtQ cbrt dt a b).1
      case hj =>
        intro c hc
        by_cases hij : i = j
        · subst hij
          have hlen : i < st.stars.length := (List.getElem?_eq_some.mp h1).1
          rw [List.getElem?_set_eq_of_lt _ (by simpa using hlen)] at hc
          cases hc
          have hab : a = b := by
            rw [h1] at h2
            exact Option.some.inj h2
          show (pairStep sqrtQ cbrt dt a b).b.position
              = (pairStep sqrtQ cbrt dt a b).a.position
          rw [(pairStep_preserves_position sqrtQ cbrt dt a b).2,
              (pairStep_preserves_position sqrtQ cbrt dt a b).1, hab]
        · rw [List.getElem?_set_ne hij, h2] at hc
          cases hc
          exact (pairStep_preserves_position sqrtQ cbrt dt a b).2
    · rfl

theorem pairPhase_preserves_position (sqrtQ cbrt : ℚ → ℚ) (dt : ℚ) (stars : List Body) :
    (pairPhase sqrtQ cbrt dt stars).stars.map (fun s => s.position)
      = stars.map (fun s => s.position) := by
  unfold pairPhase
  refine foldl_preserves
    (fun st : LoopState =>
      st.stars.map (fun s => s.position) = stars.map (fun s => s.position))
    _ ?_ _ _ rfl
  intro st i hst
  refine foldl_preserves
    (fun st : LoopState =>
      st.stars.map (fun s => s.position) = stars.map (fun s => s.position))
    _ ?_ _ _ hst
  intro st2 j hst2
  by_cases hij : i < j
  · rw [if_pos hij, stepPair_preserves_position]
    exact hst2
  · rw [if_neg hij]
    exact hst2

theorem agePass_preserves_position (dt : ℚ) (stars : List Body) :
    (agePass dt stars).map (fun s => s.position) = stars.map (fun s => s.position) := by
  unfold agePass
  split
  · rw [List.map_map]
    rfl
  · rfl

theorem posPass_eq_map (dt : ℚ) (stars : List Body) :
    posPass dt stars = stars.map (fun s =>
      { s with position :=
          ⟨s.position.x + s.velocity.x * dt,
           s.position.y + s.velocity.y * dt,
           s.position.z + s.velocity.z * dt⟩ }) := rfl

/-- C4 amended: when dt is nonzero and the tick fires no merger, the
pairwise phase (and the age pass before it) leave every position exactly
where it was, and the final body list is the pairwise-phase output with
every position advanced by its current velocity times dt in the separate
final pass; when a merger fires the engine returns early and the
counterexample shows positions are then not advanced at all. -/
theorem tick_positions_after_pairs (sqrtQ cbrt : ℚ → ℚ) (delta timeScale : ℚ)
    (stars : List Body)
    (hdt : delta * timeScale ≠ 0)
    (hnm : (tick sqrtQ cbrt delta timeScale stars).merged = none) :
    ((pairPhase sqrtQ cbrt (delta * timeScale) (agePass (delta * timeScale) stars)).stars.map
        (fun s => s.position) = stars.map (fun s => s.position))
    ∧ (tick sqrtQ cbrt delta timeScale stars).stars
        = (pairPhase sqrtQ cbrt (delta * timeScale)
            (agePass (delta * timeScale) stars)).stars.map
            (fun s =>
              { s with position :=
                  ⟨s.position.x + s.velocity.x * (delta * timeScale),
                   s.position.y + s.velocity.y * (delta * timeScale),
                   s.position.z + s.velocity.z * (delta * timeScale)⟩ }) := by
  constructor
  · rw [pairPhase_preserves_position, agePass_preserves_position]
  · unfold tick at hnm ⊢
    rw [if_neg hdt] at hnm ⊢
    dsimp only at hnm ⊢
    cases h : (pairPhase sqrtQ cbrt (delta * timeScale)
        (agePass (delta * timeScale) stars)).merged with
    | some x =>
      rw [h] at hnm
      simp at hnm
    | none =>
      rfl

/-- Witness for the position-pass theorem: a single body, unit delta and
time scale, so no pair interacts and no merger fires. -/
theorem tick_positions_after_pairs_witness :
    ((1 : ℚ) * 1 ≠ 0)
    ∧ (tick sqrt25 cbrtZero 1 1 [mergerA]).merged = none
    ∧ (((pairPhase sqrt25 cbrtZero (1 * 1) (agePass (1 * 1) [mergerA])).stars.map
          (fun s => s.position) = [mergerA].map (fun s => s.position))
      ∧ (tick sqrt25 cbrtZero 1 1 [mergerA]).stars
          = (pairPhase sqrt25 cbrtZero (1 * 1) (agePass (1 * 1) [mergerA])).stars.map
              (fun s =>
                { s with position :=
                    ⟨s.position.x + s.velocity.x * (1 * 1),
                     s.position.y + s.velocity.y * (1 * 1),
                     s.position.z + s.velocity.z * (1 * 1)⟩ })) :=
  ⟨by norm_num,
   by
    have hr : List.range 1 = [0] := rfl
    norm_num [tick, pairPhase, agePass, posPass, stepPair, hr, mergerA],
   tick_positions_after_pairs sqrt25 cbrtZero 1 1 [mergerA] (by norm_num)
     (by
       have hr : List.range 1 = [0] := rfl
       norm_num [tick, pairPhase, agePass, posPass, stepPair, hr, mergerA])⟩

theorem flagsLe_refl (a : Body) : flagsLe a a := ⟨id, id⟩

theorem flagsLe_trans {a b c : Body} (h1 : flagsLe a b) (h2 : flagsLe b c) : flagsLe a c :=
  ⟨fun h => h2.1 (h1.1 h), fun h => h2.2 (h1.2 h)⟩

theorem gravityStep_shred_fst (s : ℚ → ℚ) (t : ℚ) (x y : Body) :
    (gravityStep s t x y).1.isShredding = x.isShredding := rfl

theorem gravityStep_shred_snd (s : ℚ → ℚ) (t : ℚ) (x y : Body) :
    (gravityStep s t x y).2.isShredding = y.isShredding := rfl

theorem gravityStep_consumed_fst (s : ℚ → ℚ) (t : ℚ) (x y : Body) :
    (gravityStep s t x y).1.consumedBy = x.consumedBy := rfl

theorem gravityStep_consumed_snd (s : ℚ → ℚ) (t : ℚ) (x y : Body) :
    (gravityStep s t x y).2.consumedBy = y.consumedBy := rfl

theorem dampingStep_shred_fst (s : ℚ → ℚ) (t : ℚ) (x y : Body) :
    (dampingStep s t x y).1.isShredding = x.isShredding := rfl

theorem dampingStep_shred_snd (s : ℚ → ℚ) (t : ℚ) (x y : Body) :
    (dampingStep s t x y).2.isShredding = y.isShredding := rfl

theorem dampingStep_consumed_fst (s : ℚ → ℚ) (t : ℚ) (x y : Body) :
    (dampingStep s t x y).1.consumedBy = x.consumedBy := rfl

theorem dampingStep_consumed_snd (s : ℚ → ℚ) (t : ℚ) (x y : Body) :
    (dampingStep s t x y).2.consumedBy = y.consumedBy := rfl

theorem mergeBodies_shred (c : ℚ → ℚ) (w l : Body) :
    (mergeBodies c w l).isShredding = w.isShredding := rfl

theorem mergeBodies_consumed (c : ℚ → ℚ) (w l : Body) :
    (mergeBodies c w l).consumedBy = w.consumedBy := rfl

theorem feedStep_shred_fst_true (t : ℚ) (x y : Body) :
    (feedStep t x y true).1.isShredding = x.isShredding := rfl

theorem feedStep_shred_fst_false (t : ℚ) (x y : Body) :
    (feedStep t x y false).1.isShredding = true := rfl

theorem feedStep_consumed_fst_true (t : ℚ) (x y : Body) :
    (feedStep t x y true).1.consumedBy = x.consumedBy := rfl

theorem feedStep_consumed_fst_false (t : ℚ) (x y : Body) :
    (feedStep t x y false).1.consumedBy = some y.id := rfl

theorem feedStep_shred_snd_true (t : ℚ) (x y : Body) :
    (feedStep t x y true).2.isShredding = true := rfl

theorem feedStep_shred_snd_false (t : ℚ) (x y : Body) :
    (feedStep t x y false).2.isShredding = y.isShredding := rfl

theorem feedStep_consumed_snd_true (t : ℚ) (x y : Body) :
    (feedStep t x y true).2.consumedBy = some x.id := rfl

theorem feedStep_consumed_snd_false (t : ℚ) (x y : Body) :
    (feedStep t x y false).2.consumedBy = y.consumedBy := rfl

theorem pairStep_flags (sqrtQ cbrt : ℚ → ℚ) (dt : ℚ) (a b : Body) :
    flagsLe a (pairStep sqrtQ cbrt dt a b).a ∧ flagsLe b (pairStep sqrtQ cbrt dt a b).b := by
  cases hw : selectWinnerA a b <;>
    simp only [pairStep, hw] <;>
    split_ifs <;>
    refine ⟨⟨?_, ?_⟩, ⟨?_, ?_⟩⟩ <;>
    intro h <;>
    simp_all only [gravityStep_shred_fst, gravityStep_shred_snd,
      gravityStep_consumed_fst, gravityStep_consumed_snd,
      dampingStep_shred_fst, dampingStep_shred_snd,
      dampingStep_consumed_fst, dampingStep_consumed_snd,
      mergeBodies_shred, mergeBodies_consumed,
      feedStep_shred_fst_true, feedStep_shred_fst_false,
      feedStep_consumed_fst_true, feedStep_consumed_fst_false,
      feedStep_shred_snd_true, feedStep_shred_snd_false,
      feedStep_consumed_snd_true, feedStep_consumed_snd_false,
      Bool.false_eq_true, if_true, if_false, Option.isSome_some]

theorem listFlagsLe_refl (l : List Body) : listFlagsLe l l :=
  ⟨rfl, fun _ a a' h1 h2 => by
    rw [h1] at h2
    cases h2
    exact flagsLe_refl a⟩

theorem listFlagsLe_trans {l1 l2 l3 : List Body}
    (h12 : listFlagsLe l1 l2) (h23 : listFlagsLe l2 l3) : listFlagsLe l1 l3 := by
  obtain ⟨hl, h⟩ := h12
  obtain ⟨hl', h'⟩ := h23
  refine ⟨hl.trans hl', fun i a a' h1 h3 => ?_⟩
  have hi : i < l2.length := by
    rw [← hl]
    exact (List.getElem?_eq_some.mp h1).1
  have hm : l2[i]? = some l2[i] := List.getElem?_eq_getElem hi
  exact flagsLe_trans (h i a l2[i] h1 hm) (h' i l2[i] a' hm h3)

theorem listFlagsLe_set (l : List Body) (i : ℕ) (a x : Body)
    (hi : l[i]? = some a) (hx : flagsLe a x) : listFlagsLe l (l.set i x) := by
  refine ⟨(List.length_set ..).symm, fun k c c' h1 h2 => ?_⟩
  by_cases hki : k = i
  · subst hki
    rw [List.getElem?_set_eq_of_lt _ (List.getElem?_eq_some.mp h1).1] at h2
    cases h2
    rw [hi] at h1
    cases h1
    exact hx
  · rw [List.getElem?_set_ne (fun hik => hki hik.symm), h1] at h2
    cases h2
    exact flagsLe_refl c

theorem listFlagsLe_set_set (l : List Body) (i j : ℕ) (a b x y : Body)
    (hi : l[i]? = some a) (hj : l[j]? = some b)
    (hx : flagsLe a x) (hy : flagsLe b y) :
    listFlagsLe l ((l.set i x).set j y) := by
  refine ⟨by simp [List.length_set], fun k c c' h1 h2 => ?_⟩
  by_cases hkj : k = j
  · subst hkj
    have hlen : k < (l.set i x).length := by
      rw [List.length_set]
      exact (List.getElem?_eq_some.mp h1).1
    rw [List.getElem?_set_eq_of_lt _ hlen] at h2
    cases h2
    rw [hj] at h1
    cases h1
    exact hy
  · rw [List.getElem?_set_ne (fun h => hkj h.symm)] at h2
    by_cases hki : k = i
    · subst hki
      rw [List.getElem?_set_eq_of_lt _ (List.getElem?_eq_some.mp h1).1] at h2
      cases h2
      rw [hi] at h1
      cases h1
      exact hx
    · rw [List.getElem?_set_ne (fun h => hki h.symm), h1] at h2
      cases h2
      exact flagsLe_refl c

theorem stepPair_flags (sqrtQ cbrt : ℚ → ℚ) (dt : ℚ) (st : LoopState) (i j : ℕ) :
    listFlagsLe st.stars (stepPair sqrtQ cbrt dt st i j).stars := by
  unfold stepPair
  split
  · exact listFlagsLe_refl _
  · split
    · next a b h1 h2 =>
      exact listFlagsLe_set_set _ i j a b _ _ h1 h2
        (pairStep_flags sqrtQ cbrt dt a b).1 (pairStep_flags sqrtQ cbrt dt a b).2
    · exact listFlagsLe_refl _

theorem pairPhase_flags (sqrtQ cbrt : ℚ → ℚ) (dt : ℚ) (stars : List Body) :
    listFlagsLe stars (pairPhase sqrtQ cbrt dt stars).stars := by
  unfold pairPhase
  refine foldl_preserves (fun st : LoopState => listFlagsLe stars st.stars) _ ?_ _ _
    (listFlagsLe_refl stars)
  intro st i hst
  refine foldl_preserves (fun st : LoopState => listFlagsLe stars st.stars) _ ?_ _ _ hst
  intro st2 j hst2
  by_cases hij : i < j
  · rw [if_pos hij]
    exact listFlagsLe_trans hst2 (stepPair_flags sqrtQ cbrt dt st2 i j)
  · rw [if_neg hij]
    exact hst2

theorem listFlagsLe_map (l : List Body) (f : Body → Body) (hf : ∀ a, flagsLe a (f a)) :
    listFlagsLe l (l.map f) := by
  refine ⟨(List.length_map ..).symm, fun i a a' h1 h2 => ?_⟩
  rw [List.getElem?_map, h1] at h2
  cases h2
  exact hf a

theorem agePass_flags (dt : ℚ) (stars : List Body) :
    listFlagsLe stars (agePass dt stars) := by
  unfold agePass
  split
  · exact listFlagsLe_map _ _ (fun x => flagsLe_refl x)
  · exact listFlagsLe_refl _

theorem posPass_flags (dt : ℚ) (stars : List Body) :
    listFlagsLe stars (posPass dt stars) :=
  listFlagsLe_map _ _ (fun x => flagsLe_refl x)

theorem tick_flags (sqrtQ cbrt : ℚ → ℚ) (delta timeScale : ℚ) (stars : List Body) :
    listFlagsLe stars (tick sqrtQ cbrt delta timeScale stars).stars := by
  unfold tick
  dsimp only
  split
  · exact listFlagsLe_refl _
  · split
    · exact listFlagsLe_trans (agePass_flags _ _) (pairPhase_flags _ _ _ _)
    · exact listFlagsLe_trans
        (listFlagsLe_trans (agePass_flags _ _) (pairPhase_flags _ _ _ _))
        (posPass_flags _ _)

theorem handleMassTransfer_flags (sourceId targetId : ℕ) (amount : ℚ) (stars : List Body) :
    listFlagsLe stars (handleMassTransfer sourceId targetId amount stars) := by
  unfold handleMassTransfer
  split
  · next si _ _ _ =>
    split
    · next src hsrc =>
      split
      · exact listFlagsLe_refl _
      · exact listFlagsLe_set _ si src _ hsrc ⟨fun _ => rfl, fun _ => rfl⟩
    · exact listFlagsLe_refl _
  · exact listFlagsLe_refl _

theorem handleMerger_mem {winnerId loserId : ℕ} {stars : List Body} {s : Body}
    (hs : s ∈ handleMerger winnerId loserId stars) : s ∈ stars := by
  unfold handleMerger at hs
  split at hs
  · exact List.mem_of_mem_filter hs
  · exact hs

/-- C10: shredding flags are monotone: across a physics tick and across
the mass transfer handler, a body occupying a given registry slot keeps
its shredding flag once set and keeps some predator reference once one
is set (it may be repointed, never cleared); the merger handler only
removes bodies, returning surviving bodies unchanged; and a star
materialized from a cloud starts with the shredding flag clear and no
predator reference. -/
theorem shredding_flags_monotone :
    (∀ (sqrtQ cbrt : ℚ → ℚ) (delta timeScale : ℚ) (stars : List Body),
      listFlagsLe stars (tick sqrtQ cbrt delta timeScale stars).stars)
    ∧ (∀ (sourceId targetId : ℕ) (amount : ℚ) (stars : List Body),
      listFlagsLe stars (handleMassTransfer sourceId targetId amount stars))
    ∧ (∀ (winnerId loserId : ℕ) (stars : List Body) (s : Body),
      s ∈ handleMerger winnerId loserId stars → s ∈ stars)
    ∧ (∀ (cloudId : ℕ) (pos vel : Vec3) (mass rand : ℚ),
      (mkStar cloudId pos vel mass rand).isShredding = false
      ∧ (mkStar cloudId pos vel mass rand).consumedBy = none) :=
  ⟨tick_flags, handleMassTransfer_flags,
   fun _ _ _ _ hs => handleMerger_mem hs,
   fun _ _ _ _ _ => ⟨rfl, rfl⟩⟩

/-- Witness for the flag monotonicity theorem: a body already shredding
keeps its flag across a concrete solo tick, and a third body survives a
concrete merge removal unchanged. -/
theorem shredding_flags_monotone_witness :
    ([shredBody][0]? = some shredBody)
    ∧ ((tick (fun _ => 1) (fun _ => 1) 1 1 [shredBody]).stars[0]? = some shredBodyAfter)
    ∧ shredBody.isShredding = true
    ∧ shredBodyAfter.isShredding = true
    ∧ (regThird ∈ handleMerger 0 1 [regWinner, regLoser, regThird])
    ∧ regThird ∈ [regWinner, regLoser, regThird] :=
  ⟨rfl,
   by
    have hr : List.range 1 = [0] := rfl
    norm_num [tick, pairPhase, agePass, posPass, stepPair, hr, shredBody, shredBodyAfter],
   rfl,
   ((shredding_flags_monotone.1 (fun _ => 1) (fun _ => 1) 1 1 [shredBody]).2 0
      shredBody shredBodyAfter rfl
      (by
        have hr : List.range 1 = [0] := rfl
        norm_num [tick, pairPhase, agePass, posPass, stepPair, hr, shredBody,
          shredBodyAfter])).1 rfl,
   by
    have he : handleMerger 0 1 [regWinner, regLoser, regThird] = [regWinner, regThird] := rfl
    rw [he]
    exact List.mem_cons_of_mem _ (List.mem_cons_self _ _),
   shredding_flags_monotone.2.2.1 0 1 [regWinner, regLoser, regThird] regThird
     (by
      have he : handleMerger 0 1 [regWinner, regLoser, regThird] = [regWinner, regThird] := rfl
      rw [he]
      exact List.mem_cons_of_mem _ (List.mem_cons_self _ _))⟩
